import Mathlib

/-!
Verification development for the AI-Agent-PDF-To-CSV repository.

The repository is a small conversational agent (router + chat/search/pdf
handler nodes) with a regex-based tax-form field extractor and a SQLite
session store.  This file gives a shallow embedding of the logic under
`src/` — the router classification step (`src/agent/nodes.py`), the pdf
handler (`src/agent/nodes.py`), the extraction pipeline
(`src/agent/tools/pdf_converter.py`) and the session upsert
(`src/agent/db.py`) — and proves the spec-level properties about it.

Python strings are modelled as `String` or `List Char`, Python floats
arising from `float()` on decimal literals as `ℚ`, fallible code as
`Except`, and the Python `re` patterns used by the extractor as values of
a small regex AST with a backtracking matcher that mirrors `re.search`
semantics (leftmost start position, greedy/lazy/alternation preference
order, `re.IGNORECASE`) for exactly the constructs those patterns use.
-/

/-! ## Python string primitives -/

/-- Python `str.strip()` whitespace set (ASCII part): space, \t, \n, \r,
\x0b, \x0c.  This is also the set matched by the regex class `\s` for
ASCII input. -/
def isPySpace (c : Char) : Bool :=
  c == ' ' || c == '\t' || c == '\n' || c == '\r' ||
  c == Char.ofNat 11 || c == Char.ofNat 12

/-- Python `str.strip()` on a character list: drop whitespace from both
ends. -/
def pyStripL (s : List Char) : List Char :=
  ((s.dropWhile isPySpace).reverse.dropWhile isPySpace).reverse

/-- Python `str.strip()` on a string. -/
def pyStripS (s : String) : String :=
  String.mk (pyStripL s.toList)

/-- Python `str.lower()` (ASCII case mapping, which covers all strings the
embedded code compares against). -/
def pyLowerS (s : String) : String :=
  String.mk (s.toList.map Char.toLower)

/-! ## Regex AST and matcher

The extractor's patterns only quantify single-character classes
(`[\d,]+`, `.*?`, `\$?`, `\d{4}` …), so quantifiers are restricted to
character classes; this keeps the backtracking matcher structurally
recursive while covering every pattern in `pdf_converter.py`. -/

/-- Regex AST for the patterns used in `src/agent/tools/pdf_converter.py`.
`starG`/`starL` are greedy/lazy star over a character class, `optG` a
greedy `?`, `rep` an exact `{n}` repetition, `grp` the (single) capturing
group, `wordB` the zero-width `\b`. -/
inductive RE where
  | eps
  | cls (p : Char → Bool)
  | seq (a b : RE)
  | alt (a b : RE)
  | starG (p : Char → Bool)
  | starL (p : Char → Bool)
  | optG (p : Char → Bool)
  | rep (p : Char → Bool) (n : Nat)
  | grp (a : RE)
  | wordB

/-- Word character for `\b` (Python `\w` on ASCII input). -/
def isWordChar (c : Char) : Bool := c.isAlphanum || c == '_'

/-- Is position `i` a `\b` word boundary of `s`? -/
def isBoundary (s : List Char) (i : Nat) : Bool :=
  let before := if i = 0 then false else
    match s[i-1]? with
    | some c => isWordChar c
    | none => false
  let after :=
    match s[i]? with
    | some c => isWordChar c
    | none => false
  before != after

/-- Length of the maximal run of characters satisfying `p` starting at
position `i`. -/
def runLen (p : Char → Bool) (s : List Char) (i : Nat) : Nat :=
  ((s.drop i).takeWhile p).length

/-- One-character class step: successors of position `i` (at most one). -/
def clsStep (p : Char → Bool) (s : List Char) (i : Nat) :
    List (Nat × Option (Nat × Nat)) :=
  match s[i]? with
  | some c => if p c then [(i + 1, none)] else []
  | none => []

/-- All ways `re` can match a prefix of `s.drop i`, as a list of
(end position, capture span) pairs in Python backtracking preference
order: the head of the list is the match `re.search` would commit to at
start position `i`.  Greedy quantifiers list longer matches first, lazy
ones shorter first, alternation lists the left branch first. -/
def reMatches : RE → List Char → Nat → List (Nat × Option (Nat × Nat))
  | .eps, _, i => [(i, none)]
  | .cls p, s, i => clsStep p s i
  | .seq a b, s, i =>
    (reMatches a s i).flatMap fun m =>
      (reMatches b s m.1).map fun m2 => (m2.1, m.2.orElse fun _ => m2.2)
  | .alt a b, s, i => reMatches a s i ++ reMatches b s i
  | .starG p, s, i =>
    let n := runLen p s i
    (List.range (n + 1)).map fun k => (i + (n - k), none)
  | .starL p, s, i =>
    let n := runLen p s i
    (List.range (n + 1)).map fun k => (i + k, none)
  | .optG p, s, i => clsStep p s i ++ [(i, none)]
  | .rep p n, s, i => if n ≤ runLen p s i then [(i + n, none)] else []
  | .grp a, s, i => (reMatches a s i).map fun m => (m.1, some (i, m.1))
  | .wordB, s, i => if isBoundary s i then [(i, none)] else []

/-- Python `re.search(pattern, s)`: try start positions left to right and
return the backtracking-preferred match at the first position that has
one.  Result: (end position, capture span of group 1). -/
def reSearch (re : RE) (s : List Char) : Option (Nat × Option (Nat × Nat)) :=
  (List.range (s.length + 1)).findSome? fun i => (reMatches re s i).head?

/-- Text of the span `(a, b)` of `s` (the capture group's matched text). -/
def extractSpan (s : List Char) (ab : Nat × Nat) : List Char :=
  (s.drop ab.1).take (ab.2 - ab.1)

/-- Text of `match.group(1)` for a `reSearch` result.  In every pattern of
`pdf_converter.py` the single group participates in any successful match,
so the `none` case is unreachable there. -/
def captureText (s : List Char) (m : Nat × Option (Nat × Nat)) : List Char :=
  (m.2.map (extractSpan s)).getD []

/-! ## Python `float()` on the extractor's captured amounts

After `replace(",", "").replace("$", "")` the captured text of an amount
pattern consists of digits and at most one dot, so the only `float()`
behaviours reachable in `_find_amount` are: a decimal literal containing
at least one digit parses to its value; `""` and `"."` raise
`ValueError`. -/

/-- Numeric value of an ASCII digit. -/
def digitVal (c : Char) : Nat := c.toNat - 48

/-- Value of a digit string read in base 10. -/
def digitsVal (ds : List Char) : Nat :=
  ds.foldl (fun a c => a * 10 + digitVal c) 0

/-- Python `float(raw)` restricted to strings over digits and dots (the
only inputs reachable in `_find_amount`): `some` of the decimal value
when there is at least one digit and at most one dot, `none` where
`float()` raises `ValueError`. -/
def parseAmount (s : List Char) : Option ℚ :=
  if s.all (fun c => c.isDigit || c == '.') && s.any (fun c => c.isDigit)
      && decide (s.count '.' ≤ 1) then
    let intP := s.takeWhile (fun c => c != '.')
    let fracP := (s.dropWhile (fun c => c != '.')).drop 1
    some ((digitsVal intP : ℚ) + (digitsVal fracP : ℚ) / (10 : ℚ) ^ fracP.length)
  else none

/-- The raw value `_find_amount` feeds to `float()`:
`match.group(1).replace(",", "").replace("$", "").strip()`. -/
def stripAmt (cap : List Char) : List Char :=
  pyStripL (cap.filter (fun c => c != ',' && c != '$'))

/-! ## The extractor's pattern rules (src/agent/tools/pdf_converter.py)

Each definition is one regex literal from the source, compiled by hand
into the `RE` AST.  `re.IGNORECASE` is reflected by `licit` matching
characters case-insensitively. -/

/-- Case-insensitive literal character (patterns are written lowercase). -/
def licit (c : Char) : RE := .cls (fun x => x.toLower == c)

/-- Case-insensitive literal word. -/
def rlit (w : String) : RE :=
  w.toList.foldr (fun c acc => RE.seq (licit c) acc) RE.eps

/-- Greedy `+` over a character class. -/
def plusC (p : Char → Bool) : RE := .seq (.cls p) (.starG p)

/-- Class `.` : any character but newline. -/
def anyC : Char → Bool := fun c => c != '\n'

/-- Class `\d`. -/
def digitC : Char → Bool := Char.isDigit

/-- Class `[:\s]`. -/
def colonSpaceC : Char → Bool := fun c => c == ':' || isPySpace c

/-- Class `[A-Za-z ,'-]` (the name-character class). -/
def nameCharC : Char → Bool := fun c =>
  (('a' ≤ c && c ≤ 'z') || ('A' ≤ c && c ≤ 'Z') || c == ' ' || c == ','
    || c == Char.ofNat 39 || c == '-')

/-- Class `[\w /]`. -/
def wordSpaceSlashC : Char → Bool := fun c => isWordChar c || c == ' ' || c == '/'

/-- Class `[\d,]`. -/
def digitCommaC : Char → Bool := fun c => c.isDigit || c == ','

/-- Tail `\$?([\d,]+\.?\d*)` shared by all amount patterns. -/
def amtTail : RE :=
  .seq (.optG (fun c => c == '$'))
    (.grp (.seq (plusC digitCommaC)
      (.seq (.optG (fun c => c == '.')) (.starG digitC))))

/-- Amount pattern of the common shape `PREFIX.*?\$?([\d,]+\.?\d*)`. -/
def amtPat (pre : RE) : RE := .seq pre (.seq (.starL anyC) amtTail)

/-- Pattern `name[:\s]+([A-Za-z ,'-]+)`. -/
def namePat1 : RE := .seq (rlit "name") (.seq (plusC colonSpaceC) (.grp (plusC nameCharC)))

/-- Pattern `taxpayer[:\s]+([A-Za-z ,'-]+)`. -/
def namePat2 : RE := .seq (rlit "taxpayer") (.seq (plusC colonSpaceC) (.grp (plusC nameCharC)))

/-- Pattern `ssn.*?(\d{4})\b`. -/
def ssnPat1 : RE := .seq (rlit "ssn") (.seq (.starL anyC) (.seq (.grp (.rep digitC 4)) .wordB))

/-- Pattern `social security.*?(\d{4})\b`. -/
def ssnPat2 : RE :=
  .seq (rlit "social security") (.seq (.starL anyC) (.seq (.grp (.rep digitC 4)) .wordB))

/-- Pattern `filing status[:\s]+(\w[\w /]+)`. -/
def filingPat1 : RE :=
  .seq (rlit "filing status")
    (.seq (plusC colonSpaceC) (.grp (.seq (.cls isWordChar) (plusC wordSpaceSlashC))))

/-- Pattern `(single|married filing jointly|married filing separately|head of household)`. -/
def filingPat2 : RE :=
  .grp (.alt (rlit "single") (.alt (rlit "married filing jointly")
    (.alt (rlit "married filing separately") (rlit "head of household"))))

/-- Pattern `tax year[:\s]+(\d{4})`. -/
def taxYearPat1 : RE :=
  .seq (rlit "tax year") (.seq (plusC colonSpaceC) (.grp (.rep digitC 4)))

/-- Pattern `\b(20\d{2})\b`. -/
def taxYearPat2 : RE :=
  .seq .wordB (.seq (.grp (.seq (rlit "20") (.rep digitC 2))) .wordB)

/-- Pattern `wages.*?\$?([\d,]+\.?\d*)`. -/
def wagesPat1 : RE := amtPat (rlit "wages")

/-- Pattern `w-?2.*?\$?([\d,]+\.?\d*)`. -/
def wagesPat2 : RE := amtPat (.seq (licit 'w') (.seq (.optG (fun c => c == '-')) (licit '2')))

/-- Pattern `self.employ.*?\$?([\d,]+\.?\d*)` (the `.` is the any-char class). -/
def selfEmpPat1 : RE := amtPat (.seq (rlit "self") (.seq (.cls anyC) (rlit "employ")))

/-- Pattern `freelance.*?\$?([\d,]+\.?\d*)`. -/
def selfEmpPat2 : RE := amtPat (rlit "freelance")

/-- Pattern `1099.*?\$?([\d,]+\.?\d*)`. -/
def selfEmpPat3 : RE := amtPat (rlit "1099")

/-- Pattern `interest income.*?\$?([\d,]+\.?\d*)`. -/
def interestPat1 : RE := amtPat (rlit "interest income")

/-- Pattern `1099-int.*?\$?([\d,]+\.?\d*)`. -/
def interestPat2 : RE := amtPat (rlit "1099-int")

/-- Pattern `dividend.*?\$?([\d,]+\.?\d*)`. -/
def dividendPat1 : RE := amtPat (rlit "dividend")

/-- Pattern `1099-div.*?\$?([\d,]+\.?\d*)`. -/
def dividendPat2 : RE := amtPat (rlit "1099-div")

/-- Pattern `capital gain.*?\$?([\d,]+\.?\d*)`. -/
def capGainPat : RE := amtPat (rlit "capital gain")

/-- Pattern `(standard|itemized) deduction`. -/
def dedTypePat : RE :=
  .seq (.grp (.alt (rlit "standard") (rlit "itemized"))) (rlit " deduction")

/-- Pattern `mortgage interest.*?\$?([\d,]+\.?\d*)`. -/
def mortgagePat : RE := amtPat (rlit "mortgage interest")

/-- Pattern `charit.*?\$?([\d,]+\.?\d*)`. -/
def charitPat : RE := amtPat (rlit "charit")

/-- Pattern `medical.*?\$?([\d,]+\.?\d*)`. -/
def medicalPat : RE := amtPat (rlit "medical")

/-- Pattern `salt.*?\$?([\d,]+\.?\d*)`. -/
def saltPat1 : RE := amtPat (rlit "salt")

/-- Pattern `state.*?local.*?tax.*?\$?([\d,]+\.?\d*)`. -/
def saltPat2 : RE :=
  .seq (rlit "state") (.seq (.starL anyC) (.seq (rlit "local")
    (.seq (.starL anyC) (.seq (rlit "tax") (.seq (.starL anyC) amtTail)))))

/-- Pattern `child tax credit.*?\$?([\d,]+\.?\d*)`. -/
def childCreditPat : RE := amtPat (rlit "child tax credit")

/-- Pattern `education credit.*?\$?([\d,]+\.?\d*)`. -/
def eduCreditPat : RE := amtPat (rlit "education credit")

/-- Pattern `(?:ev|electric vehicle|energy) credit.*?\$?([\d,]+\.?\d*)`. -/
def evCreditPat : RE :=
  amtPat (.seq (.alt (rlit "ev") (.alt (rlit "electric vehicle") (rlit "energy")))
    (rlit " credit"))

/-- Pattern `gross income.*?\$?([\d,]+\.?\d*)`. -/
def grossIncPat1 : RE := amtPat (rlit "gross income")

/-- Pattern `total income.*?\$?([\d,]+\.?\d*)`. -/
def grossIncPat2 : RE := amtPat (rlit "total income")

/-- Pattern `taxable income.*?\$?([\d,]+\.?\d*)`. -/
def taxablePat : RE := amtPat (rlit "taxable income")

/-- Pattern `tax owed.*?\$?([\d,]+\.?\d*)`. -/
def taxOwedPat1 : RE := amtPat (rlit "tax owed")

/-- Pattern `total tax.*?\$?([\d,]+\.?\d*)`. -/
def taxOwedPat2 : RE := amtPat (rlit "total tax")

/-- Pattern `withhold.*?\$?([\d,]+\.?\d*)`. -/
def withholdPat1 : RE := amtPat (rlit "withhold")

/-- Pattern `federal.*?withheld.*?\$?([\d,]+\.?\d*)`. -/
def withholdPat2 : RE :=
  .seq (rlit "federal") (.seq (.starL anyC) (.seq (rlit "withheld")
    (.seq (.starL anyC) amtTail)))

/-- Pattern `refund.*?\$?([\d,]+\.?\d*)`. -/
def refundPat1 : RE := amtPat (rlit "refund")

/-- Pattern `amount due.*?\$?([\d,]+\.?\d*)`. -/
def refundPat2 : RE := amtPat (rlit "amount due")

/-- Every pattern rule of `parse_pdf_into_template`, in source order. -/
def allPatterns : List RE :=
  [namePat1, namePat2, ssnPat1, ssnPat2, filingPat1, filingPat2,
   taxYearPat1, taxYearPat2, wagesPat1, wagesPat2, selfEmpPat1, selfEmpPat2,
   selfEmpPat3, interestPat1, interestPat2, dividendPat1, dividendPat2,
   capGainPat, dedTypePat, mortgagePat, charitPat, medicalPat, saltPat1,
   saltPat2, childCreditPat, eduCreditPat, evCreditPat, grossIncPat1,
   grossIncPat2, taxablePat, taxOwedPat1, taxOwedPat2, withholdPat1,
   withholdPat2, refundPat1, refundPat2]

/-! ## Field values and the extraction template -/

/-- A schema field value: Python `str` or Python `float` (modelled as ℚ,
exact for every value `float()` produces from the extractor's decimal
captures). -/
inductive FieldValue where
  | s (v : String)
  | n (v : ℚ)
deriving DecidableEq

/-- A schema instance: ordered sections, each an ordered list of
(field name, value) pairs — the nested-dict shape of `TAX_TEMPLATE`
with insertion order preserved. -/
abbrev Schema := List (String × List (String × FieldValue))

/-- The `TAX_TEMPLATE` defaults from `pdf_converter.py`. -/
def TAX_TEMPLATE : Schema :=
  [("Personal Information",
    [("Full Name", .s ""),
     ("SSN (last 4 digits)", .s ""),
     ("Filing Status", .s ""),
     ("Tax Year", .s "")]),
   ("Income",
    [("W-2 Wages", .n 0),
     ("Self-Employment / Freelance Income", .n 0),
     ("Interest Income (1099-INT)", .n 0),
     ("Dividend Income (1099-DIV)", .n 0),
     ("Capital Gains / Losses", .n 0),
     ("Other Income", .n 0)]),
   ("Deductions",
    [("Deduction Type", .s ""),
     ("Mortgage Interest", .n 0),
     ("Charitable Contributions", .n 0),
     ("Medical Expenses", .n 0),
     ("State & Local Taxes (SALT)", .n 0),
     ("Other Deductions", .n 0)]),
   ("Tax Credits",
    [("Child Tax Credit", .n 0),
     ("Education Credit", .n 0),
     ("EV / Energy Credit", .n 0),
     ("Other Credits", .n 0)]),
   ("Summary",
    [("Gross Income", .n 0),
     ("Total Deductions", .n 0),
     ("Taxable Income", .n 0),
     ("Estimated Tax Owed", .n 0),
     ("Taxes Already Paid (W-2 withholding)", .n 0),
     ("Refund / Amount Due", .n 0)])]

/-- The `_find_value` loop: first pattern that matches wins, its capture
is returned stripped; no match gives `""`. -/
def find_value (t : List Char) : List RE → String
  | [] => ""
  | p :: ps =>
    match reSearch p t with
    | some m => String.mk (pyStripL (captureText t m))
    | none => find_value t ps

/-- The `_find_amount` loop: for each pattern in order, if it matches, try
`float()` on the cleaned capture; a successful parse returns, a
`ValueError` falls through to the next pattern (the `except ValueError:
pass` inside the `for`); exhaustion gives `0.0`. -/
def find_amount (t : List Char) : List RE → ℚ
  | [] => 0
  | p :: ps =>
    match reSearch p t with
    | some m =>
      match parseAmount (stripAmt (captureText t m)) with
      | some v => v
      | none => find_amount t ps
    | none => find_amount t ps

/-- `parse_pdf_into_template`: the template with each assigned field
replaced by its `_find_value`/`_find_amount` result (dict update on the
fixed keys, in template order; fields the source never assigns keep their
defaults). -/
def parse_pdf_into_template (t : List Char) : Schema :=
  [("Personal Information",
    [("Full Name", .s (find_value t [namePat1, namePat2])),
     ("SSN (last 4 digits)", .s (find_value t [ssnPat1, ssnPat2])),
     ("Filing Status", .s (find_value t [filingPat1, filingPat2])),
     ("Tax Year", .s (find_value t [taxYearPat1, taxYearPat2]))]),
   ("Income",
    [("W-2 Wages", .n (find_amount t [wagesPat1, wagesPat2])),
     ("Self-Employment / Freelance Income",
       .n (find_amount t [selfEmpPat1, selfEmpPat2, selfEmpPat3])),
     ("Interest Income (1099-INT)", .n (find_amount t [interestPat1, interestPat2])),
     ("Dividend Income (1099-DIV)", .n (find_amount t [dividendPat1, dividendPat2])),
     ("Capital Gains / Losses", .n (find_amount t [capGainPat])),
     ("Other Income", .n 0)]),
   ("Deductions",
    [("Deduction Type", .s (find_value t [dedTypePat])),
     ("Mortgage Interest", .n (find_amount t [mortgagePat])),
     ("Charitable Contributions", .n (find_amount t [charitPat])),
     ("Medical Expenses", .n (find_amount t [medicalPat])),
     ("State & Local Taxes (SALT)", .n (find_amount t [saltPat1, saltPat2])),
     ("Other Deductions", .n 0)]),
   ("Tax Credits",
    [("Child Tax Credit", .n (find_amount t [childCreditPat])),
     ("Education Credit", .n (find_amount t [eduCreditPat])),
     ("EV / Energy Credit", .n (find_amount t [evCreditPat])),
     ("Other Credits", .n 0)]),
   ("Summary",
    [("Gross Income", .n (find_amount t [grossIncPat1, grossIncPat2])),
     ("Total Deductions", .n 0),
     ("Taxable Income", .n (find_amount t [taxablePat])),
     ("Estimated Tax Owed", .n (find_amount t [taxOwedPat1, taxOwedPat2])),
     ("Taxes Already Paid (W-2 withholding)",
       .n (find_amount t [withholdPat1, withholdPat2])),
     ("Refund / Amount Due", .n (find_amount t [refundPat1, refundPat2]))])]

/-! ## Record exporter (template_to_csv) and extraction summary -/

/-- One row of the exported tabular artifact: exactly the three columns
`Section`, `Field`, `Value` selected by `template_to_csv`. -/
structure CsvRow where
  rSection : String
  rField : String
  rValue : FieldValue
deriving DecidableEq

/-- `template_to_csv` row construction: for each section, a marker row
`=== section ===` with blank field and value, then one row per field. -/
def template_to_csv (data : Schema) : List CsvRow :=
  data.flatMap fun sf =>
    { rSection := "=== " ++ sf.1 ++ " ===", rField := "", rValue := .s "" } ::
      sf.2.map fun fv => { rSection := sf.1, rField := fv.1, rValue := fv.2 }

/-- Re-reading the artifact: the non-marker rows (those carrying a field
name) as (section, field, value) triples, in file order. -/
def readCsvTriples (rows : List CsvRow) : List (String × String × FieldValue) :=
  (rows.filter fun r => r.rField != "").map fun r => (r.rSection, r.rField, r.rValue)

/-- The (section, field, value) triples of a schema instance, in order. -/
def dataTriples (data : Schema) : List (String × String × FieldValue) :=
  data.flatMap fun sf => sf.2.map fun fv => (sf.1, fv.1, fv.2)

/-- The summary's filled test `if value and value != 0.0` from
`convert_pdf_to_csv`: a string is counted when truthy (non-empty; a
string always differs from the float `0.0`), a number when non-zero. -/
def truthyNonzero : FieldValue → Bool
  | .s v => v != ""
  | .n q => q != 0

/-- The `filled` list of `convert_pdf_to_csv`, as (section, field) pairs
in iteration order. -/
def filledFields (data : Schema) : List (String × String) :=
  data.flatMap fun sf =>
    (sf.2.filter fun fv => truthyNonzero fv.2).map fun fv => (sf.1, fv.1)

/-- The `empty` (left blank) list of `convert_pdf_to_csv`, as
(section, field) pairs in iteration order. -/
def emptyFields (data : Schema) : List (String × String) :=
  data.flatMap fun sf =>
    (sf.2.filter fun fv => !truthyNonzero fv.2).map fun fv => (sf.1, fv.1)

/-- All (section, field) pairs of the template, in order. -/
def allFieldPairs : List (String × String) :=
  TAX_TEMPLATE.flatMap fun sf => sf.2.map fun fv => (sf.1, fv.1)

/-- The `ValueError` message `convert_pdf_to_csv` raises on a text-free
document. -/
def noTextMsg : String :=
  "No text could be extracted from the PDF. It may be image-based (scanned). Try an OCR tool first."

/-- `convert_pdf_to_csv` from the extracted text on (text extraction via
pdfplumber is external I/O): raise `ValueError` when the stripped text is
empty, otherwise fill the template and return the schema together with
the CSV rows and the filled/blank summary lists. -/
def convert_pdf_to_csv (pdfText : List Char) :
    Except String (Schema × List CsvRow × List (String × String) × List (String × String)) :=
  if pyStripL pdfText = [] then
    .error noTextMsg
  else
    let data := parse_pdf_into_template pdfText
    .ok (data, template_to_csv data, filledFields data, emptyFields data)

/-! ## Session store (src/agent/db.py) -/

/-- One row of the `sessions` table.  Timestamps are the opaque ISO
strings the code stores; `message_count` is the SQLite INTEGER column. -/
structure SessionRow where
  thread_id : String
  created_at : String
  last_active : String
  message_count : Int
deriving DecidableEq

/-- `upsert_session`: `INSERT ... ON CONFLICT(thread_id) DO UPDATE SET
last_active = excluded.last_active, message_count = message_count +
excluded.message_count`.  The table is the row list; `thread_id` is the
primary key, so on conflict the existing row keeps its `created_at`,
takes the new `last_active` and adds the delta to its count; otherwise a
fresh row `(id, now, now, delta)` is inserted.  `now` is the timestamp
taken inside the call. -/
def upsert_session (db : List SessionRow) (id : String) (now : String)
    (delta : Int) : List SessionRow :=
  if db.any fun r => r.thread_id == id then
    db.map fun r =>
      if r.thread_id == id then
        { r with last_active := now, message_count := r.message_count + delta }
      else r
  else
    db ++ [{ thread_id := id, created_at := now, last_active := now,
             message_count := delta }]

/-! ## Router classification (src/agent/nodes.py, router_node) -/

/-- The fixed label set of the router. -/
def routerLabels : List String := ["chat", "search", "pdf"]

/-- The classification step of `router_node` (lines 58-65), with the raw
classifier response as parameter: `action = response.content.strip()
.lower()`, falling back to `"chat"` when the normalized response is not
in the fixed label set. -/
def router_classify (response : String) : String :=
  let action := pyLowerS (pyStripS response)
  if action ∈ routerLabels then action else "chat"

/-! ## PDF handler (src/agent/nodes.py, pdf_node) -/

/-- A Python value that is either `None` or a `str` — the type of
`AgentState.pdf_path`. -/
inductive PyStrOrNone where
  | pynone
  | pystr (v : String)
deriving DecidableEq

/-- Python `state.get("pdf_path", "")`: the default applies only when the
key is absent; a key present with value `None` is returned as `None`. -/
def dict_get (entry : Option PyStrOrNone) (dflt : PyStrOrNone) : PyStrOrNone :=
  entry.getD dflt

/-- The slice of the turn state `pdf_node` reads.  `pdf_path` is `none`
when the key is absent from the state dict and `some v` when it is
present with value `v` (possibly Python `None`). -/
structure PdfNodeState where
  pdf_path : Option PyStrOrNone
deriving DecidableEq

/-- What a run of `pdf_node` produces: one agent reply plus the optional
`csv_path` state update. -/
structure PdfNodeReply where
  message : String
  csv_path : Option String
deriving DecidableEq

/-- A Python exception escaping the handler. -/
inductive PyError where
  | attributeError (msg : String)
deriving DecidableEq

/-- `pdf_node`: `state.get("pdf_path", "").strip()` (an `AttributeError`
when the value is `None`, since `None` has no `strip`), the empty-path
clarification, the `os.path.isfile` check, then the `try` block running
`convert_pdf_to_csv` and the LLM relay — any exception there is caught
and turned into an error reply.  The filesystem check, the conversion
and the relay LLM call are external capabilities passed as parameters;
`convert` returns `.error` where `convert_pdf_to_csv` would raise. -/
def pdf_node (isfile : String → Bool)
    (convert : String → Except String (String × String))
    (relay : String → String)
    (st : PdfNodeState) : Except PyError PdfNodeReply :=
  match dict_get st.pdf_path (.pystr "") with
  | .pynone =>
    .error (.attributeError "NoneType object has no attribute strip")
  | .pystr raw =>
    let pdf_path := pyStripS raw
    if pdf_path = "" then
      .ok { message := "I'd love to convert a PDF for you! Please provide the path to your PDF file.\nExample: `convert /path/to/tax_document.pdf`",
            csv_path := none }
    else if !isfile pdf_path then
      .ok { message := "File not found: `" ++ pdf_path ++ "`\nPlease check the path and try again.",
            csv_path := none }
    else
      match convert pdf_path with
      | .ok (csv_path, summary) =>
        .ok { message := relay summary, csv_path := some csv_path }
      | .error e =>
        .ok { message := "Error processing PDF: " ++ e, csv_path := none }

/-! ## Helper lemmas -/

lemma pyStripL_eq_nil_iff (t : List Char) :
    pyStripL t = [] ↔ ∀ c ∈ t, isPySpace c := by
  unfold pyStripL
  rw [List.reverse_eq_nil_iff, List.dropWhile_eq_nil_iff]
  constructor
  · intro h c hc
    have hc' : c ∈ t.takeWhile isPySpace ++ t.dropWhile isPySpace := by
      rw [List.takeWhile_append_dropWhile]; exact hc
    rcases List.mem_append.mp hc' with h1 | h2
    · exact List.mem_takeWhile_imp h1
    · exact h c (List.mem_reverse.mpr h2)
  · intro h c hc
    exact h c ((List.dropWhile_sublist _).subset (List.mem_reverse.mp hc))

/-! ## C1 — router classification -/

/-- C1: for every raw classifier response, the router's classification
step trims and lowercases the response and returns a label from the
fixed set {chat, search, pdf}; a normalized response inside the set is
returned as is, and any normalized response outside the set gives
exactly `chat`. -/
theorem router_classify_spec :
    (∀ r : String, router_classify r ∈ routerLabels) ∧
    (∀ r : String, pyLowerS (pyStripS r) ∈ routerLabels →
      router_classify r = pyLowerS (pyStripS r)) ∧
    (∀ r : String, pyLowerS (pyStripS r) ∉ routerLabels →
      router_classify r = "chat") := by
  have key : ∀ r : String, router_classify r =
      if pyLowerS (pyStripS r) ∈ routerLabels then pyLowerS (pyStripS r)
      else "chat" := fun r => rfl
  refine ⟨fun r => ?_, fun r h => by rw [key, if_pos h],
    fun r h => by rw [key, if_neg h]⟩
  rw [key]
  by_cases h : pyLowerS (pyStripS r) ∈ routerLabels
  · rwa [if_pos h]
  · rw [if_neg h]; simp [routerLabels]

/-- Witness for C1: a recognised response (after normalization) is
returned as its label, an unexpected one degrades to `chat`. -/
theorem router_classify_spec_witness :
    router_classify " PDF " = "pdf" ∧ router_classify "banana" = "chat" :=
  ⟨router_classify_spec.2.1 " PDF " (by decide),
   router_classify_spec.2.2 "banana" (by decide)⟩

/-! ## C9 — extraction determinism -/

/-- C9: extraction is deterministic — two runs of
`parse_pdf_into_template` on character-for-character identical text give
identical filled schemas (in the embedding the extractor is a pure
function of the text and the fixed rule set). -/
theorem parse_pdf_deterministic (t1 t2 : List Char) (h : t1 = t2) :
    parse_pdf_into_template t1 = parse_pdf_into_template t2 := by rw [h]

/-- Witness for C9 at a concrete text. -/
theorem parse_pdf_deterministic_witness :
    parse_pdf_into_template "a".toList = parse_pdf_into_template "a".toList :=
  parse_pdf_deterministic "a".toList "a".toList rfl

/-! ## C8 — the pdf handler on a `None` path -/

/-- C8 (failing input): when the state dict has the `pdf_path` key set to
Python `None` — which `main.py` passes for every message not of the form
`convert <path>` — `pdf_node` evaluates `state.get("pdf_path", "")
.strip()` on `None` and raises `AttributeError` before reaching its
clarifying-message branch or its `try` block, contradicting the claim
that the handler never raises. -/
theorem pdf_node_none_path_raises :
    pdf_node (fun _ => false) (fun p => .error p) (fun s => s)
      { pdf_path := some .pynone } =
    .error (.attributeError "NoneType object has no attribute strip") := rfl

/-! ## C2 — session upsert -/

/-- C2: `upsert_session` on an absent id appends exactly one row
initialized to (id, now, now, delta); on a present id it keeps the row's
`created_at`, sets `last_active` to now and adds the delta to its count;
calling it twice with delta 2 on a previously-absent id leaves exactly
one row for that id, with count 4 and `last_active` from the second
call. -/
theorem upsert_session_spec :
    (∀ (db : List SessionRow) (id now : String) (δ : Int),
      (∀ r ∈ db, r.thread_id ≠ id) →
      upsert_session db id now δ =
        db ++ [{ thread_id := id, created_at := now, last_active := now,
                 message_count := δ }]) ∧
    (∀ (db : List SessionRow) (id now : String) (δ : Int) (r : SessionRow),
      r ∈ db → r.thread_id = id →
      { thread_id := r.thread_id, created_at := r.created_at,
        last_active := now, message_count := r.message_count + δ } ∈
        upsert_session db id now δ) ∧
    (∀ (db : List SessionRow) (id t1 t2 : String),
      (∀ r ∈ db, r.thread_id ≠ id) →
      ((upsert_session (upsert_session db id t1 2) id t2 2).filter
          fun r => r.thread_id == id) =
        [{ thread_id := id, created_at := t1, last_active := t2,
           message_count := 4 }]) := by
  have insertAbsent : ∀ (db : List SessionRow) (id now : String) (δ : Int),
      (∀ r ∈ db, r.thread_id ≠ id) →
      upsert_session db id now δ =
        db ++ [{ thread_id := id, created_at := now, last_active := now,
                 message_count := δ }] := by
    intro db id now δ h
    unfold upsert_session
    rw [if_neg]
    intro hany
    obtain ⟨r, hr, hb⟩ := List.any_eq_true.mp hany
    exact h r hr (by simpa using hb)
  refine ⟨insertAbsent, ?_, ?_⟩
  · intro db id now δ r hr hid
    unfold upsert_session
    rw [if_pos (List.any_eq_true.mpr ⟨r, hr, by simp [hid]⟩)]
    exact List.mem_map.mpr ⟨r, hr, by simp [hid]⟩
  · intro db id t1 t2 h
    rw [insertAbsent db id t1 2 h]
    unfold upsert_session
    rw [if_pos (List.any_eq_true.mpr
      ⟨_, List.mem_append_right _ (List.mem_singleton.mpr rfl), by simp⟩)]
    rw [List.map_append, List.filter_append]
    have h1 : ((db.map fun r =>
        if r.thread_id == id then
          { r with last_active := t2, message_count := r.message_count + 2 }
        else r).filter fun r => r.thread_id == id) = [] := by
      rw [List.filter_eq_nil_iff]
      intro a ha
      obtain ⟨r, hr, rfl⟩ := List.mem_map.mp ha
      have : (r.thread_id == id) = false := by simpa using h r hr
      rw [this]
      simp [this]
    rw [h1]
    simp only [List.map_cons, List.map_nil, List.nil_append]
    norm_num

/-- Witness for C2: two upserts with delta 2 on an absent id in the empty
table leave exactly one row with count 4 and the second timestamp. -/
theorem upsert_session_spec_witness :
    ((upsert_session (upsert_session [] "s" "t1" 2) "s" "t2" 2).filter
        fun r => r.thread_id == "s") =
      [{ thread_id := "s", created_at := "t1", last_active := "t2",
         message_count := 4 }] :=
  upsert_session_spec.2.2 [] "s" "t1" "t2" (by simp)

/-! ## C3 — empty extracted text -/

/-- C3: when the extracted text is empty or whitespace-only, the
conversion pipeline raises the distinguishable no-extractable-text
`ValueError` (returning no schema, CSV rows or summary); when the text
has at least one non-whitespace character it does not raise this
failure. -/
theorem convert_pdf_empty_text (t : List Char) :
    ((∀ c ∈ t, isPySpace c) → convert_pdf_to_csv t = .error noTextMsg) ∧
    ((∃ c ∈ t, ¬ isPySpace c) → ∃ out, convert_pdf_to_csv t = .ok out) := by
  constructor
  · intro h
    unfold convert_pdf_to_csv
    rw [if_pos ((pyStripL_eq_nil_iff t).mpr h)]
  · rintro ⟨c, hc, hns⟩
    unfold convert_pdf_to_csv
    rw [if_neg]
    · exact ⟨_, rfl⟩
    · intro hnil
      exact hns (by simpa using (pyStripL_eq_nil_iff t).mp hnil c hc)

/-- Witness for C3: a whitespace-only text raises the no-text failure and
a one-letter text does not. -/
theorem convert_pdf_empty_text_witness :
    convert_pdf_to_csv "  \n".toList = .error noTextMsg ∧
    ∃ out, convert_pdf_to_csv "x".toList = .ok out :=
  ⟨(convert_pdf_empty_text "  \n".toList).1 (by decide),
   (convert_pdf_empty_text "x".toList).2 ⟨'x', by decide, by decide⟩⟩

/-! ## C4 — numeric field parsing -/

/-- Declarative reading of one `_find_amount` step: the parsed value of
pattern `p` on text `t`, when `p` matches and its cleaned capture
survives `float()`. -/
def searchAndParse (t : List Char) (p : RE) : Option ℚ :=
  (reSearch p t).bind fun m => parseAmount (stripAmt (captureText t m))

lemma parseAmount_eval (s : List Char) (a b k : Nat)
    (hcond : (s.all (fun c => c.isDigit || c == '.') &&
      s.any (fun c => c.isDigit) && decide (s.count '.' ≤ 1)) = true)
    (ha : digitsVal (s.takeWhile fun c => c != '.') = a)
    (hb : digitsVal ((s.dropWhile fun c => c != '.').drop 1) = b)
    (hk : ((s.dropWhile fun c => c != '.').drop 1).length = k) :
    parseAmount s = some ((a : ℚ) + (b : ℚ) / (10 : ℚ) ^ k) := by
  unfold parseAmount
  rw [if_pos hcond]
  show some ((digitsVal (s.takeWhile fun c => c != '.') : ℚ) +
    (digitsVal ((s.dropWhile fun c => c != '.').drop 1) : ℚ) /
      (10 : ℚ) ^ ((s.dropWhile fun c => c != '.').drop 1).length) = _
  rw [ha, hb, hk]

/-- C4 counterexample: on the text `wages , w2 500` the first rule of the
W-2 Wages field matches (capturing `,`, whose cleaned text fails
`float()`), yet the field does not stay at its default 0 — the loop falls
through to the second rule and produces 500, refuting "if that parse
fails the field is left at its default of zero". -/
theorem find_amount_first_match_counterexample :
    (reSearch wagesPat1 "wages , w2 500".toList).isSome = true ∧
    searchAndParse "wages , w2 500".toList wagesPat1 = none ∧
    find_amount "wages , w2 500".toList [wagesPat1, wagesPat2] = 500 := by
  have h1 : reSearch wagesPat1 "wages , w2 500".toList = some (7, some (6, 7)) := by
    decide
  have h2 : reSearch wagesPat2 "wages , w2 500".toList = some (14, some (11, 14)) := by
    decide
  have hc1 : parseAmount (stripAmt (captureText "wages , w2 500".toList
      (7, some (6, 7)))) = none := by decide
  have hv : parseAmount (stripAmt (captureText "wages , w2 500".toList
      (14, some (11, 14)))) = some 500 := by
    have e : stripAmt (captureText "wages , w2 500".toList (14, some (11, 14))) =
        "500".toList := by decide
    rw [e, parseAmount_eval "500".toList 500 0 0 (by decide) (by decide)
      (by decide) (by decide)]
    norm_num
  refine ⟨by rw [h1]; rfl, ?_, ?_⟩
  · unfold searchAndParse
    rw [h1]
    simpa using hc1
  · simp only [find_amount, h1, h2, hc1, hv]

/-- C4 (amended): for every text and ordered rule list, the numeric field
equals the value of the first rule that both matches and whose cleaned
capture parses as a decimal number; a rule whose match fails to parse is
skipped in favour of the remaining rules, and if no rule yields a
parseable match the field stays at its default 0 — parsing never raises
and never aborts the rest of the extraction. -/
theorem find_amount_first_parse_wins (t : List Char) (ps : List RE) :
    find_amount t ps = ((ps.findSome? (searchAndParse t)).getD 0 : ℚ) := by
  induction ps with
  | nil => rfl
  | cons p ps ih =>
    rw [List.findSome?_cons]
    unfold find_amount searchAndParse
    cases hsearch : reSearch p t with
    | none => simpa [searchAndParse] using ih
    | some m =>
      cases hp : parseAmount (stripAmt (captureText t m)) with
      | none => simpa [searchAndParse, hp] using ih
      | some v => simp [searchAndParse, hp]

/-! ## C10 — numeric fields are non-negative -/

lemma parseAmount_nonneg (s : List Char) (v : ℚ) (h : parseAmount s = some v) :
    0 ≤ v := by
  unfold parseAmount at h
  split at h
  · simp only [Option.some.injEq] at h
    subst h
    positivity
  · exact absurd h (by simp)

lemma find_amount_nonneg (t : List Char) (ps : List RE) :
    0 ≤ find_amount t ps := by
  induction ps with
  | nil => exact le_refl 0
  | cons p ps ih =>
    unfold find_amount
    cases hsearch : reSearch p t with
    | none => simpa [hsearch] using ih
    | some m =>
      cases hp : parseAmount (stripAmt (captureText t m)) with
      | none => simpa [hp] using ih
      | some v => simpa [hp] using parseAmount_nonneg _ v hp

/-- C10: every numeric field of every filled schema produced by the
extractor is non-negative — the amount patterns capture only digits,
commas and a decimal point (no sign), so even "Capital Gains / Losses"
can never be set to a negative value, whatever the document says. -/
theorem parse_pdf_amounts_nonneg (t : List Char) :
    ∀ sf ∈ parse_pdf_into_template t, ∀ fv ∈ sf.2, ∀ q : ℚ,
      fv.2 = FieldValue.n q → 0 ≤ q := by
  have H : (parse_pdf_into_template t).Forall
      fun sf => sf.2.Forall fun fv =>
        ∀ q : ℚ, fv.2 = FieldValue.n q → 0 ≤ q := by
    unfold parse_pdf_into_template
    simp only [List.forall_cons]
    repeat' apply And.intro
    all_goals try trivial
    all_goals intro q hq
    all_goals
      first
        | exact FieldValue.noConfusion hq
        | (rw [FieldValue.n.injEq] at hq; subst hq;
           first
             | exact find_amount_nonneg _ _
             | exact le_refl 0)
  intro sf hsf fv hfv q hq
  exact List.forall_iff_forall_mem.mp
    (List.forall_iff_forall_mem.mp H sf hsf) fv hfv q hq

/-- Witness for C10 at a concrete text and field (the defaults-only
schema of a text no pattern matches). -/
theorem parse_pdf_amounts_nonneg_witness : (0 : ℚ) ≤ 0 :=
  parse_pdf_amounts_nonneg "zzz".toList
    ("Income",
      [("W-2 Wages", .n 0),
       ("Self-Employment / Freelance Income", .n 0),
       ("Interest Income (1099-INT)", .n 0),
       ("Dividend Income (1099-DIV)", .n 0),
       ("Capital Gains / Losses", .n 0),
       ("Other Income", .n 0)])
    (by decide) ("Capital Gains / Losses", .n 0) (by decide) 0 rfl

/-! ## C7 — export round-trip -/

lemma filter_section_rows (s : String) (fields : List (String × FieldValue))
    (h : ∀ fv ∈ fields, fv.1 ≠ "") :
    ((fields.map fun fv =>
        ({ rSection := s, rField := fv.1, rValue := fv.2 } : CsvRow)).filter
      fun r => r.rField != "") =
    fields.map fun fv => { rSection := s, rField := fv.1, rValue := fv.2 } := by
  rw [List.filter_eq_self]
  intro r hr
  obtain ⟨fv, hfv, rfl⟩ := List.mem_map.mp hr
  simpa using h fv hfv

/-- C7: the exported artifact has exactly three columns (the `CsvRow`
shape `template_to_csv` emits), a marker row precedes each section's
field rows, and re-reading the artifact — keeping the non-marker rows in
order — reconstructs exactly the (section, field, value) triples of the
schema instance that was exported, for every instance whose field names
are non-blank (the fixed template shape guarantees this). -/
theorem template_csv_roundtrip (data : Schema)
    (h : ∀ sf ∈ data, ∀ fv ∈ sf.2, fv.1 ≠ "") :
    readCsvTriples (template_to_csv data) = dataTriples data := by
  induction data with
  | nil => rfl
  | cons sf rest ih =>
    have hsf := h sf (List.mem_cons_self sf rest)
    have hrest : ∀ x ∈ rest, ∀ fv ∈ x.2, fv.1 ≠ "" :=
      fun x hx => h x (List.mem_cons_of_mem _ hx)
    unfold template_to_csv dataTriples
    rw [List.flatMap_cons, List.flatMap_cons]
    unfold readCsvTriples
    simp only [List.cons_append, List.filter_cons, bne_self_eq_false,
      Bool.false_eq_true, if_false, List.filter_append,
      filter_section_rows sf.1 sf.2 hsf, List.map_append]
    congr 1
    · rw [List.map_map]; rfl
    · exact ih hrest

/-- Witness for C7: the round-trip on the template itself. -/
theorem template_csv_roundtrip_witness :
    readCsvTriples (template_to_csv TAX_TEMPLATE) = dataTriples TAX_TEMPLATE :=
  template_csv_roundtrip TAX_TEMPLATE (by decide)

/-! ## C5 — no pattern matches -/

lemma find_value_of_no_match (t : List Char) (ps : List RE)
    (h : ∀ p ∈ ps, reSearch p t = none) : find_value t ps = "" := by
  induction ps with
  | nil => rfl
  | cons p ps ih =>
    simp only [find_value, h p (List.mem_cons_self p ps)]
    exact ih fun x hx => h x (List.mem_cons_of_mem _ hx)

lemma find_amount_of_no_match (t : List Char) (ps : List RE)
    (h : ∀ p ∈ ps, reSearch p t = none) : find_amount t ps = 0 := by
  induction ps with
  | nil => rfl
  | cons p ps ih =>
    simp only [find_amount, h p (List.mem_cons_self p ps)]
    exact ih fun x hx => h x (List.mem_cons_of_mem _ hx)

/-- C5: on a non-empty text where no pattern rule of any field matches,
the extractor returns the template unchanged (every string field empty,
every numeric field zero) and the export summary classifies no field as
filled and every field of the schema as left blank. -/
theorem extract_no_match_defaults (t : List Char) (_hne : t ≠ [])
    (h : ∀ p ∈ allPatterns, reSearch p t = none) :
    parse_pdf_into_template t = TAX_TEMPLATE ∧
    filledFields (parse_pdf_into_template t) = [] ∧
    emptyFields (parse_pdf_into_template t) = allFieldPairs := by
  have base : parse_pdf_into_template t = TAX_TEMPLATE := by
    simp only [allPatterns, List.mem_cons, List.not_mem_nil, or_false,
      forall_eq_or_imp, forall_eq] at h
    obtain ⟨h1, h2, h3, h4, h5, h6, h7, h8, h9, h10, h11, h12, h13, h14,
      h15, h16, h17, h18, h19, h20, h21, h22, h23, h24, h25, h26, h27,
      h28, h29, h30, h31, h32, h33, h34, h35, h36⟩ := h
    unfold parse_pdf_into_template TAX_TEMPLATE
    simp only [find_value, find_amount, h1, h2, h3, h4, h5, h6, h7, h8,
      h9, h10, h11, h12, h13, h14, h15, h16, h17, h18, h19, h20, h21,
      h22, h23, h24, h25, h26, h27, h28, h29, h30, h31, h32, h33, h34,
      h35, h36]
  refine ⟨base, ?_, ?_⟩ <;> rw [base] <;> decide

/-- Witness for C5 on the concrete non-empty text `zzz`, which no pattern
matches. -/
theorem extract_no_match_defaults_witness :
    parse_pdf_into_template "zzz".toList = TAX_TEMPLATE ∧
    filledFields (parse_pdf_into_template "zzz".toList) = [] ∧
    emptyFields (parse_pdf_into_template "zzz".toList) = allFieldPairs :=
  extract_no_match_defaults "zzz".toList (by decide) (by decide)

/-! ## C6 — the Wages / Filing Status scenario -/

/-- The scenario document text. -/
def scenarioText : List Char :=
  "Wages: $55,000.00, Filing Status: Single".toList

/-- The schema the scenario should produce: template defaults except
W-2 Wages = 55000.0 and Filing Status = "Single". -/
def scenarioExpected : Schema :=
  [("Personal Information",
    [("Full Name", .s ""),
     ("SSN (last 4 digits)", .s ""),
     ("Filing Status", .s "Single"),
     ("Tax Year", .s "")]),
   ("Income",
    [("W-2 Wages", .n 55000),
     ("Self-Employment / Freelance Income", .n 0),
     ("Interest Income (1099-INT)", .n 0),
     ("Dividend Income (1099-DIV)", .n 0),
     ("Capital Gains / Losses", .n 0),
     ("Other Income", .n 0)]),
   ("Deductions",
    [("Deduction Type", .s ""),
     ("Mortgage Interest", .n 0),
     ("Charitable Contributions", .n 0),
     ("Medical Expenses", .n 0),
     ("State & Local Taxes (SALT)", .n 0),
     ("Other Deductions", .n 0)]),
   ("Tax Credits",
    [("Child Tax Credit", .n 0),
     ("Education Credit", .n 0),
     ("EV / Energy Credit", .n 0),
     ("Other Credits", .n 0)]),
   ("Summary",
    [("Gross Income", .n 0),
     ("Total Deductions", .n 0),
     ("Taxable Income", .n 0),
     ("Estimated Tax Owed", .n 0),
     ("Taxes Already Paid (W-2 withholding)", .n 0),
     ("Refund / Amount Due", .n 0)])]

/-- C6: on the text `Wages: $55,000.00, Filing Status: Single` the
extractor fills W-2 Wages with 55000.0 and Filing Status with "Single",
leaves every other field at its template default, and the summary counts
exactly 2 filled fields. -/
theorem extract_scenario_wages_filing :
    parse_pdf_into_template scenarioText = scenarioExpected ∧
    (filledFields (parse_pdf_into_template scenarioText)).length = 2 := by
  have hw : reSearch wagesPat1 scenarioText = some (17, some (8, 17)) := by decide
  have hwv : parseAmount (stripAmt (captureText scenarioText (17, some (8, 17)))) =
      some 55000 := by
    have e : stripAmt (captureText scenarioText (17, some (8, 17))) =
        "55000.00".toList := by decide
    rw [e, parseAmount_eval "55000.00".toList 55000 0 2 (by decide) (by decide)
      (by decide) (by decide)]
    norm_num
  have hf : reSearch filingPat1 scenarioText = some (40, some (34, 40)) := by decide
  have hfv : String.mk (pyStripL (captureText scenarioText (40, some (34, 40)))) =
      "Single" := by decide
  have n1 : reSearch namePat1 scenarioText = none := by decide
  have n2 : reSearch namePat2 scenarioText = none := by decide
  have n3 : reSearch ssnPat1 scenarioText = none := by decide
  have n4 : reSearch ssnPat2 scenarioText = none := by decide
  have n5 : reSearch taxYearPat1 scenarioText = none := by decide
  have n6 : reSearch taxYearPat2 scenarioText = none := by decide
  have n7 : reSearch selfEmpPat1 scenarioText = none := by decide
  have n8 : reSearch selfEmpPat2 scenarioText = none := by decide
  have n9 : reSearch selfEmpPat3 scenarioText = none := by decide
  have n10 : reSearch interestPat1 scenarioText = none := by decide
  have n11 : reSearch interestPat2 scenarioText = none := by decide
  have n12 : reSearch dividendPat1 scenarioText = none := by decide
  have n13 : reSearch dividendPat2 scenarioText = none := by decide
  have n14 : reSearch capGainPat scenarioText = none := by decide
  have n15 : reSearch dedTypePat scenarioText = none := by decide
  have n16 : reSearch mortgagePat scenarioText = none := by decide
  have n17 : reSearch charitPat scenarioText = none := by decide
  have n18 : reSearch medicalPat scenarioText = none := by decide
  have n19 : reSearch saltPat1 scenarioText = none := by decide
  have n20 : reSearch saltPat2 scenarioText = none := by decide
  have n21 : reSearch childCreditPat scenarioText = none := by decide
  have n22 : reSearch eduCreditPat scenarioText = none := by decide
  have n23 : reSearch evCreditPat scenarioText = none := by decide
  have n24 : reSearch grossIncPat1 scenarioText = none := by decide
  have n25 : reSearch grossIncPat2 scenarioText = none := by decide
  have n26 : reSearch taxablePat scenarioText = none := by decide
  have n27 : reSearch taxOwedPat1 scenarioText = none := by decide
  have n28 : reSearch taxOwedPat2 scenarioText = none := by decide
  have n29 : reSearch withholdPat1 scenarioText = none := by decide
  have n30 : reSearch withholdPat2 scenarioText = none := by decide
  have n31 : reSearch refundPat1 scenarioText = none := by decide
  have n32 : reSearch refundPat2 scenarioText = none := by decide
  have base : parse_pdf_into_template scenarioText = scenarioExpected := by
    unfold parse_pdf_into_template scenarioExpected
    simp only [find_value, find_amount, hw, hwv, hf, hfv, n1, n2, n3, n4,
      n5, n6, n7, n8, n9, n10, n11, n12, n13, n14, n15, n16, n17, n18,
      n19, n20, n21, n22, n23, n24, n25, n26, n27, n28, n29, n30, n31, n32]
  refine ⟨base, ?_⟩
  rw [base]
  decide
